import Mathlib

/-!
Shallow embedding of the voice-assistant controller in
`src/app/static/js/main.js` (the file `src/unnamed/part_000` is an earlier
copy of the same script without the dictation router; where both exist the
fuller `main.js` is embedded).

Modelling conventions:
* JS strings are Lean `String`s (code points instead of UTF-16 units; the
  difference is invisible for the BMP text handled here).
* `text.trim()` is modelled by `jsTrim` (strips the ASCII
  whitespace characters space, tab, CR, LF — the characters that occur in
  the program's data).
* `toLowerCase()` is modelled by `jsToLower`, correct on ASCII and on the
  Latin-1 uppercase range (covers the accented vocabulary `sí`).
* A server JSON body `{ speak?, redirect_url?, needs_confirm? }` is the
  structure `CommandReply`; an absent field is `none` / `false`, and the
  JS truthiness tests (`data.speak || ''`, `if (data.redirect_url)`) are
  modelled explicitly at each use site.
* The async handlers perform at most one `sendCommand` round trip per
  recognition result, so each handler takes the network outcome as an
  explicit `Except Unit CommandReply` argument and returns the successor
  DOM/controller state together with the list of externally visible
  effects, in program order.
-/

namespace VoiceAssistant

/-- Lowercasing of one character as `String.prototype.toLowerCase` does it,
restricted to ASCII `A`–`Z` and the Latin-1 uppercase block `À`–`Þ`
(excluding `×`), which is exact for every string this program compares. -/
def jsCharToLower (c : Char) : Char :=
  if 65 ≤ c.toNat ∧ c.toNat ≤ 90 then Char.ofNat (c.toNat + 32)
  else if 192 ≤ c.toNat ∧ c.toNat ≤ 222 ∧ c.toNat ≠ 215 then Char.ofNat (c.toNat + 32)
  else c

/-- `s.toLowerCase()` on the fragment of Unicode described at
`jsCharToLower`. -/
def jsToLower (s : String) : String :=
  String.mk (s.toList.map jsCharToLower)

/-- The whitespace class of `String.prototype.trim`, restricted to the
ASCII whitespace characters plus NBSP that occur in this program's data. -/
def isTrimSpace (c : Char) : Bool :=
  c = ' ' || c = '\t' || c = '\n' || c = '\x0b' || c = '\x0c' || c = '\r' ||
    c = Char.ofNat 160

/-- `s.trim()`: strip leading and trailing whitespace. -/
def jsTrim (s : String) : String :=
  String.mk (((s.toList.dropWhile isTrimSpace).reverse.dropWhile isTrimSpace).reverse)

/-- `text.split('\n')` on the character list of the string: JS `split`
yields the (possibly empty) segments between the newline separators and is
never the empty list. -/
def splitLines : List Char → List (List Char)
  | [] => [[]]
  | c :: rest =>
      let r := splitLines rest
      if c = '\n' then [] :: r
      else (c :: r.headD []) :: r.tail

/-- `parts.join('\n')`. -/
def joinLines : List String → String
  | [] => ""
  | [p] => p
  | p :: rest => p ++ "\n" ++ joinLines rest

/-- `(text || '').trim().toLowerCase()` — the normalisation both
confirmation classifiers apply (main.js lines 473, 478). -/
def normalizeUtterance (text : String) : String :=
  jsToLower (jsTrim text)

/-- `isYes` (main.js lines 472–475). -/
def isYes (text : String) : Bool :=
  let t := normalizeUtterance text
  t == "yes" || t == "y" || t == "si" || t == "sí" || t == "ok" || t == "okay" ||
    t == "confirm" || t == "confirmar"

/-- `isNo` (main.js lines 477–480). -/
def isNo (text : String) : Bool :=
  let t := normalizeUtterance text
  t == "no" || t == "n" || t == "cancel" || t == "cancelar"

theorem isYes_eq (text : String) :
    isYes text = (normalizeUtterance text == "yes" || normalizeUtterance text == "y" ||
      normalizeUtterance text == "si" || normalizeUtterance text == "sí" ||
      normalizeUtterance text == "ok" || normalizeUtterance text == "okay" ||
      normalizeUtterance text == "confirm" || normalizeUtterance text == "confirmar") := rfl

theorem isNo_eq (text : String) :
    isNo text = (normalizeUtterance text == "no" || normalizeUtterance text == "n" ||
      normalizeUtterance text == "cancel" || normalizeUtterance text == "cancelar") := rfl

/-- The character class `\s` of the JS regex engine (ASCII whitespace
including the newline, plus NBSP).  Crucially `\s` matches `'\n'`, so a
`\s*` inside the extraction regex can cross line breaks. -/
def isJsSpace (c : Char) : Bool :=
  c = ' ' || c = '\t' || c = '\n' || c = '\x0b' || c = '\x0c' || c = '\r' ||
    c = Char.ofNat 160

/-- Modelled from the spec words of claim C3 only — NOT the program's
function: the line-based reading in which a question comes from a line
matching `<n>. <text>` at line start (optional leading whitespace, digits,
a dot, and a non-empty trimmed remainder on the same line), prefix
stripped.  Claim C3 is settled by comparing this reading with the
program's `extractNumberedQuestions` below. -/
def lineMatchedQuestion (line : List Char) : Option String :=
  let cs := line.dropWhile isJsSpace
  let digits := cs.takeWhile Char.isDigit
  let rest := cs.dropWhile Char.isDigit
  if digits.isEmpty then none
  else
    match rest with
    | '.' :: body =>
        let q := jsTrim (String.mk body)
        if q = "" then none else some q
    | _ => none

/-- The spec's line-based extraction (see `lineMatchedQuestion`). -/
def lineBasedQuestions (text : String) : List String :=
  (splitLines text.toList).filterMap lineMatchedQuestion

/-- Scanner state for the exec loop of the global regex
`(?:^|\n)\s*\d+\.\s*([^\n]+)` in `extractNumberedQuestions` (main.js line
485).  `afterAnchor`: `(?:^|\n)` has just been satisfied and the first
`\s*` is consuming; `inDigits`: inside `\d+`; `afterDot`: the literal dot
was consumed and the second `\s*` is consuming — this whitespace may span
line breaks, because JS `\s` matches `'\n'`; `inCapture`: inside the
greedy `([^\n]+)` with the characters captured so far; `seekAnchor`: the
current attempt failed, scanning for the next `'\n'` to anchor at. -/
inductive ScanMode where
  | seekAnchor
  | afterAnchor
  | inDigits
  | afterDot
  | inCapture (acc : List Char)

/-- `const q = (m[1] || '').trim(); if (q) out.push(q);` for one finished
capture (main.js lines 488–489). -/
def pushCapture (acc : List Char) (tail : List String) : List String :=
  let q := jsTrim (String.mk acc)
  if q = "" then tail else q :: tail

/-- One left-to-right pass of the regex exec loop.  Collapsed re-anchoring
is sound: after a failed attempt the engine retries `(?:^|\n)` at each
later position, but a `'\n'` lying inside whitespace already consumed by a
`\s*` of the failing attempt re-anchors into the very same failing
position (the `\s*` after the new anchor absorbs the rest of the run), so
only the next `'\n'` at or after the failure point can start a new match;
a capture ends right before a `'\n'` (or at the end), and that `'\n'` is
available to anchor the next match because `lastIndex` stops at the end of
the capture. -/
def scanQuestions : List Char → ScanMode → List String
  | [], mode =>
      match mode with
      | .inCapture acc => pushCapture acc []
      | _ => []
  | c :: rest, mode =>
      match mode with
      | .seekAnchor =>
          if c = '\n' then scanQuestions rest .afterAnchor
          else scanQuestions rest .seekAnchor
      | .afterAnchor =>
          if isJsSpace c then scanQuestions rest .afterAnchor
          else if c.isDigit then scanQuestions rest .inDigits
          else scanQuestions rest .seekAnchor
      | .inDigits =>
          if c.isDigit then scanQuestions rest .inDigits
          else if c = '.' then scanQuestions rest .afterDot
          else if c = '\n' then scanQuestions rest .afterAnchor
          else scanQuestions rest .seekAnchor
      | .afterDot =>
          if isJsSpace c then scanQuestions rest .afterDot
          else scanQuestions rest (.inCapture [c])
      | .inCapture acc =>
          if c = '\n' then pushCapture acc (scanQuestions rest .afterAnchor)
          else scanQuestions rest (.inCapture (acc ++ [c]))

/-- `extractNumberedQuestions` (main.js lines 482–492): run the global
regex `(?:^|\n)\s*\d+\.\s*([^\n]+)` over the whole text via the scanner
above, pushing each trimmed non-empty capture in match order.  The second
`\s*` crosses line breaks, so a numbered prefix whose body is empty on its
own line captures its text from the next line with content (e.g.
`"1.\nfoo"` extracts `["foo"]`). -/
def extractNumberedQuestions (text : String) : List String :=
  if text = "" then []
  else scanQuestions text.toList ScanMode.afterAnchor

/-- The numbered detail lines built by the loop in `finalizeCollected`
(main.js lines 509–513): entry `i` of the answers renders as
`"<i+1>. <question>: <answer>"`. -/
def buildPartsFrom : Nat → List (String × String) → List String
  | _, [] => []
  | i, (q, a) :: rest =>
      (toString (i + 1) ++ ". " ++ q ++ ": " ++ a) :: buildPartsFrom (i + 1) rest

def buildParts (answers : List (String × String)) : List String :=
  buildPartsFrom 0 answers

/-- The composite command text of `finalizeCollected` (main.js line 514):
`` `${lastIntent}\n\nDetails:\n${parts.join('\n')}`.trim() ``. -/
def finalizeText (lastIntent : String) (answers : List (String × String)) : String :=
  jsTrim (lastIntent ++ "\n\nDetails:\n" ++ joinLines (buildParts answers))

/-- A parsed JSON reply body `{ speak?, redirect_url?, needs_confirm? }`
(spec section 6); an absent optional field is `none` / `false`. -/
structure CommandReply where
  speak : Option String
  redirect_url : Option String
  needs_confirm : Bool
  deriving DecidableEq, Repr

/-- `sendCommand` (main.js lines 340–350), with the fetch outcome made
explicit: given the HTTP response (status-ok bit plus parsed JSON body) it
either returns the body untouched or throws `Error('Request failed')`. -/
def sendCommand (response_ok : Bool) (body : CommandReply) : Except String CommandReply :=
  if response_ok then Except.ok body else Except.error "Request failed"

/-- Externally visible actions of the controller, listed in program
order.  `spoke` is one `speak(text, lang, …)` call that actually produced
an utterance (the function returns silently on empty text, main.js line 6);
`scheduledListen` is a `setTimeout(() => startListening(true), d)`
registered from a speech-completion callback; `scheduledRedirect` is the
`setTimeout(() => window.location.href = url, 800)` navigation;
`recognitionStarted` is a `recognition.start()` attempt; `domInput`,
`domChange` and `execInsertText` are the dictation router's DOM effects. -/
inductive Effect where
  | sentCommand (text lang : String)
  | spoke (text lang : String)
  | scheduledListen (delayMs : Nat)
  | scheduledRedirect (url : String) (delayMs : Nat)
  | recognitionStarted (lang : String)
  | domInput
  | domChange
  | execInsertText (text : String)
  deriving DecidableEq, Repr

/-- Whether an effect is a `sendCommand` dispatch. -/
def Effect.isSend : Effect → Bool
  | .sentCommand _ _ => true
  | _ => false

/-- `speak(text, lang)` with no completion callback: silent on empty text. -/
def speakEff (text lang : String) : List Effect :=
  if text = "" then [] else [.spoke text lang]

/-- `speak(text, lang, () => setTimeout(() => startListening(true), d))`:
on empty text neither the utterance nor the completion timer happens. -/
def speakThenListenEff (text lang : String) (delayMs : Nat) : List Effect :=
  if text = "" then [] else [.spoke text lang, .scheduledListen delayMs]

/-- `if (data.redirect_url) setTimeout(…, 800)` — the truthiness test
fails on an absent field and on the empty string. -/
def redirectEff (data : CommandReply) : List Effect :=
  match data.redirect_url with
  | none => []
  | some u => if u = "" then [] else [.scheduledRedirect u 800]

/-- The mutable state of `initVoice` that the conversational flow reads and
writes: the closure variables of main.js lines 463–470 plus the three DOM
fields (`#voiceTranscript`, `#voiceResponse`, `#voiceStatus`). -/
structure VoiceState where
  busy : Bool
  collecting : Bool
  pendingQuestions : List String
  collectedAnswers : List (String × String)
  lastIntent : String
  awaitingConfirm : Bool
  confirmCommandText : String
  confirmLang : String
  transcript : String
  response : String
  status : String
  deriving DecidableEq, Repr

/-- `startListening(preserveResponse)` (main.js lines 548–561).
`resolved` is the value `resolveLang()` would return (it reads the language
selector and `navigator.language`, which live outside this state). -/
def startListening (s : VoiceState) (preserveResponse : Bool) (resolved : String) :
    VoiceState × List Effect :=
  if s.busy then (s, [])
  else
    ({ s with
        transcript := ""
        response := if preserveResponse then s.response else ""
        status := "Listening..." },
      [.recognitionStarted resolved])

/-- `askNextQuestion` (main.js lines 494–504).  `pendingQuestions[0]` on an
empty queue is `undefined`, which `q || ''` and `speak`'s empty-text guard
treat exactly like the empty string used here. -/
def askNextQuestion (s : VoiceState) (resolved : String) : VoiceState × List Effect :=
  let q := s.pendingQuestions.headD ""
  ({ s with response := q, status := "Answer..." }, speakThenListenEff q resolved 1200)

/-- `finalizeCollected` (main.js lines 506–546).  `net` is the settled
outcome of the one `await sendCommand(finalText, activeLang)` it performs;
the `finally` clause clears `busy` on every path. -/
def finalizeCollected (s : VoiceState) (resolved : String)
    (net : Except Unit CommandReply) : VoiceState × List Effect :=
  let finalText := finalizeText s.lastIntent s.collectedAnswers
  let s1 := { s with status := "Thinking...", busy := true }
  match net with
  | .error _ =>
      ({ s1 with status := "Error. Try again.", busy := false },
        [.sentCommand finalText resolved])
  | .ok data =>
      let speakText := data.speak.getD ""
      if data.needs_confirm then
        ({ s1 with
            response := speakText
            awaitingConfirm := true
            confirmLang := resolved
            confirmCommandText := finalText ++ " confirm=true"
            status := "Confirm?"
            busy := false },
          .sentCommand finalText resolved :: speakThenListenEff speakText resolved 800)
      else
        ({ s1 with response := speakText, status := "Done.", busy := false },
          .sentCommand finalText resolved :: (speakEff speakText resolved ++ redirectEff data))

/-- Does `(lang || '').toLowerCase().startsWith('es')` hold? -/
def langIsSpanish (lang : String) : Bool :=
  (jsToLower lang).toList.take 2 == ['e', 's']

/-- The `awaitingConfirm` branch of `recognition.onresult` (main.js lines
623–668). -/
def handleConfirm (s : VoiceState) (text resolved : String)
    (net : Except Unit CommandReply) : VoiceState × List Effect :=
  if isYes text then
    let activeLang := if s.confirmLang = "" then resolved else s.confirmLang
    let s1 := { s with awaitingConfirm := false, status := "Thinking...", busy := true }
    match net with
    | .error _ =>
        ({ s1 with status := "Error. Try again.", busy := false },
          [.sentCommand s.confirmCommandText activeLang])
    | .ok data =>
        let speakText := data.speak.getD ""
        ({ s1 with response := speakText, status := "Done.", busy := false },
          .sentCommand s.confirmCommandText activeLang ::
            (speakEff speakText activeLang ++ redirectEff data))
  else if isNo text then
    -- `confirmLang` is cleared *before* `confirmLang || resolveLang()` is
    -- read, so the active language is always the freshly resolved one.
    let activeLang := resolved
    let msg := if langIsSpanish activeLang then "Cancelado." else "Cancelled."
    ({ s with
        awaitingConfirm := false
        confirmCommandText := ""
        confirmLang := ""
        response := msg
        status := "Done." },
      speakEff msg activeLang)
  else
    let activeLang := if s.confirmLang = "" then resolved else s.confirmLang
    let prompt := if langIsSpanish activeLang then "Di sí o no." else "Say yes or no."
    ({ s with status := "Say yes or no." }, speakThenListenEff prompt activeLang 600)

/-- The `collecting` branch of `recognition.onresult` (main.js lines
670–680): shift the first pending question, record the answer, and either
ask the next question or finalize.  On the (unreachable) empty queue,
`shift()` yields `undefined`, modelled as `""`. -/
def handleCollecting (s : VoiceState) (text resolved : String)
    (net : Except Unit CommandReply) : VoiceState × List Effect :=
  let currentQ := s.pendingQuestions.headD ""
  let s1 := { s with
      pendingQuestions := s.pendingQuestions.tail
      collectedAnswers := s.collectedAnswers ++ [(currentQ, text)] }
  if 0 < s1.pendingQuestions.length then askNextQuestion s1 resolved
  else finalizeCollected { s1 with collecting := false } resolved net

/-- The fresh-command branch of `recognition.onresult` (main.js lines
682–714): send the utterance; on a reply with at least two extracted
questions enter collection mode (releasing `busy` so that listening can
restart), otherwise surface the reply; the `finally` clause clears `busy`
only when not collecting. -/
def handlePlain (s : VoiceState) (text resolved : String)
    (net : Except Unit CommandReply) : VoiceState × List Effect :=
  let s1 := { s with status := "Thinking...", busy := true }
  match net with
  | .error _ =>
      ({ s1 with status := "Error. Try again.", busy := s1.collecting },
        [.sentCommand text resolved])
  | .ok data =>
      let speakText := data.speak.getD ""
      let questions := extractNumberedQuestions speakText
      if 2 ≤ questions.length then
        let s2 := { s1 with
            collecting := true
            pendingQuestions := questions
            collectedAnswers := []
            lastIntent := text
            busy := false }
        let r := askNextQuestion s2 resolved
        (r.1, .sentCommand text resolved :: r.2)
      else
        ({ s1 with response := speakText, status := "Done.", busy := false },
          .sentCommand text resolved :: (speakEff speakText resolved ++ redirectEff data))

/-- The facets of a DOM element that `isValidDictationTarget` and
`insertTextIntoTarget` read or write (main.js lines 397–440).  `selStart`
and `selEnd` are `none` when `typeof el.selectionStart !== 'number'`;
`hasSetSelectionRange` records whether `el.setSelectionRange` is a
function. -/
structure DictationTarget where
  tagName : String
  inputType : String
  readOnly : Bool
  disabled : Bool
  isContentEditable : Bool
  isTranscriptEl : Bool
  isResponseEl : Bool
  value : String
  selStart : Option Nat
  selEnd : Option Nat
  hasSetSelectionRange : Bool
  deriving DecidableEq, Repr

/-- `isValidDictationTarget` (main.js lines 397–411) for a non-null
element; the `null` case is handled at the call site via `Option`. -/
def isValidDictationTarget (el : DictationTarget) : Bool :=
  if el.isTranscriptEl || el.isResponseEl then false
  else if jsToLower el.tagName = "textarea" then !el.readOnly && !el.disabled
  else if jsToLower el.tagName = "input" then
    if jsToLower el.inputType = "hidden" || jsToLower el.inputType = "button" ||
        jsToLower el.inputType = "submit" || jsToLower el.inputType = "reset" ||
        jsToLower el.inputType = "checkbox" || jsToLower el.inputType = "radio" ||
        jsToLower el.inputType = "file" then false
    else !el.readOnly && !el.disabled
  else el.isContentEditable

/-- `s.slice(0, n)` for `0 ≤ n` (clamped at the length, as in JS). -/
def jsSliceTo (s : String) (n : Nat) : String :=
  String.mk (s.toList.take n)

/-- `s.slice(n)` for `0 ≤ n` (clamped at the length, as in JS). -/
def jsSliceFrom (s : String) (n : Nat) : String :=
  String.mk (s.toList.drop n)

/-- Result of `insertTextIntoTarget`: its boolean return value, the target
element afterwards, and the DOM effects it fired, in order. -/
structure InsertResult where
  ok : Bool
  target : DictationTarget
  events : List Effect
  deriving DecidableEq, Repr

/-- `insertTextIntoTarget` (main.js lines 413–440).  Nothing in the
modelled happy path throws, so the `catch` branch is unreachable here. -/
def insertTextIntoTarget (target : DictationTarget) (text : String) : InsertResult :=
  if !isValidDictationTarget target then ⟨false, target, []⟩
  else
    let t := jsTrim text
    if t = "" then ⟨false, target, []⟩
    else if target.isContentEditable then
      ⟨true, target, [.execInsertText (t ++ " ")]⟩
    else
      let start := target.selStart.getD target.value.length
      let stop := target.selEnd.getD target.value.length
      let current := target.value
      let inserted := t ++ " "
      let newValue := jsSliceTo current start ++ inserted ++ jsSliceFrom current stop
      let nextPos := start + inserted.length
      ⟨true,
        { target with
            value := newValue
            selStart := if target.hasSetSelectionRange then some nextPos else target.selStart
            selEnd := if target.hasSetSelectionRange then some nextPos else target.selEnd },
        [.domInput, .domChange]⟩

/-- Ambient inputs of one `recognition.onresult` invocation that are not
part of `VoiceState`: the dictation toggle, the tracked
`lastDictationTarget` (`none` when null), and the value `resolveLang()`
returns during this event. -/
structure Ctx where
  dictationOn : Bool
  dictTarget : Option DictationTarget
  resolved : String
  deriving Repr

/-- `recognition.onresult` (main.js lines 609–715): store the transcript,
then branch by priority — dictation, pending confirmation, collection,
fresh command.  `net` is the outcome of the at most one
`sendCommand` round trip the chosen branch performs. -/
def onresult (s : VoiceState) (ctx : Ctx) (text : String)
    (net : Except Unit CommandReply) : VoiceState × List Effect :=
  let s0 := { s with transcript := text }
  if ctx.dictationOn then
    match ctx.dictTarget with
    | none => ({ s0 with status := "Tap a field first, then try again." }, [])
    | some tgt =>
        let r := insertTextIntoTarget tgt text
        ({ s0 with
            status := if r.ok then "Inserted." else "Tap a field first, then try again." },
          r.events)
  else if s0.awaitingConfirm then handleConfirm s0 text ctx.resolved net
  else if s0.collecting then handleCollecting s0 text ctx.resolved net
  else handlePlain s0 text ctx.resolved net

/-! Concrete sample inputs used by witnesses. -/

/-- The controller state right after `initVoice` (all flags cleared). -/
def initialState : VoiceState :=
  ⟨false, false, [], [], "", false, "", "", "", "", ""⟩

/-- A state in which a command has been dispatched and is being processed. -/
def busyState : VoiceState :=
  { initialState with busy := true, status := "Thinking..." }

/-- A state awaiting a yes/no confirmation for a stored command. -/
def confirmState : VoiceState :=
  { initialState with
      awaitingConfirm := true
      confirmCommandText := "create an invoice for Acme confirm=true"
      confirmLang := "en-US" }

/-- A state in the middle of question collection. -/
def collectState : VoiceState :=
  { initialState with
      collecting := true
      pendingQuestions := ["What is the client name?", "What is the amount?"]
      lastIntent := "create an invoice" }

/-- An eligible text input `"Hello"` with the caret at offset 3. -/
def helloTarget : DictationTarget :=
  ⟨"INPUT", "text", false, false, false, false, false, "Hello", some 3, some 3, true⟩

/-- A reply whose spoken text carries two numbered questions. -/
def twoQuestionReply : CommandReply :=
  ⟨some "I need more info.\n1. What is the client name?\n2. What is the amount?", none, false⟩

/-- A reply with one numbered question only. -/
def oneQuestionReply : CommandReply :=
  ⟨some "1. What is the client name?", none, false⟩

/-- A plain spoken reply. -/
def plainReply : CommandReply :=
  ⟨some "Done, invoice created.", none, false⟩

/-- A reply that requests confirmation. -/
def confirmReply : CommandReply :=
  ⟨some "Create it?", none, true⟩

/-- Ambient context: dictation off, no tracked target, English resolved. -/
def plainCtx : Ctx :=
  ⟨false, none, "en-US"⟩

/-! Claims. -/

/-- C9: the yes and no confirmation classifiers are mutually exclusive —
no utterance is classified both yes and no, so classification during
confirmation is deterministic with exactly one of three outcomes. -/
theorem yes_no_mutually_exclusive (t : String) : (isYes t && isNo t) = false := by
  have key : ∀ u : String,
      ((u == "yes" || u == "y" || u == "si" || u == "sí" || u == "ok" || u == "okay" ||
          u == "confirm" || u == "confirmar") &&
        (u == "no" || u == "n" || u == "cancel" || u == "cancelar")) = false := by
    intro u
    by_contra hc
    rw [Bool.not_eq_false, Bool.and_eq_true] at hc
    obtain ⟨hy, hn⟩ := hc
    simp only [Bool.or_eq_true, beq_iff_eq] at hy hn
    rcases hy with ((((((rfl | rfl) | rfl) | rfl) | rfl) | rfl) | rfl) | rfl <;> revert hn <;> decide
  rw [isYes_eq, isNo_eq]
  exact key (normalizeUtterance t)

/-- C6: calling `startListening` while `busy` is true is a no-op — the
state (transcript, response, status and every conversational flag) is
returned unchanged and no recognition session is started. -/
theorem startListening_busy_noop (s : VoiceState) (preserveResponse : Bool)
    (resolved : String) (h : s.busy = true) :
    startListening s preserveResponse resolved = (s, []) := by
  simp [startListening, h]

theorem startListening_busy_noop_witness :
    busyState.busy = true ∧ startListening busyState true "en-US" = (busyState, []) :=
  ⟨rfl, startListening_busy_noop busyState true "en-US" rfl⟩

/-- C7: for an eligible non-contentEditable dictation target with a
numeric selection range `[a, b)`, inserting spoken text with non-empty
trim succeeds, the new value is `value[0..a) ++ (trim(text) ++ " ") ++
value[b..]`, and both selection endpoints move to
`a + (trim(text) ++ " ").length`. -/
theorem insert_at_selection (target : DictationTarget) (text : String) (a b : Nat)
    (hvalid : isValidDictationTarget target = true)
    (hce : target.isContentEditable = false)
    (hsa : target.selStart = some a)
    (hsb : target.selEnd = some b)
    (hrange : target.hasSetSelectionRange = true)
    (htrim : jsTrim text ≠ "") :
    insertTextIntoTarget target text =
      ⟨true,
        { target with
            value := jsSliceTo target.value a ++ (jsTrim text ++ " ") ++ jsSliceFrom target.value b
            selStart := some (a + (jsTrim text ++ " ").length)
            selEnd := some (a + (jsTrim text ++ " ").length) },
        [.domInput, .domChange]⟩ := by
  simp [insertTextIntoTarget, hvalid, hce, hsa, hsb, hrange, htrim]

theorem insert_at_selection_witness :
    isValidDictationTarget helloTarget = true ∧ jsTrim "world" ≠ "" ∧
      insertTextIntoTarget helloTarget "world" =
        ⟨true,
          { helloTarget with value := "Helworld lo", selStart := some 9, selEnd := some 9 },
          [.domInput, .domChange]⟩ :=
  ⟨by decide, by decide, by
    have h := insert_at_selection helloTarget "world" 3 3 (by decide) rfl rfl rfl rfl (by decide)
    rw [h]; decide⟩

/-- C10: when the spoken text trims to the empty string,
`insertTextIntoTarget` returns false and performs no side effects — the
target is unchanged and no DOM events fire, even for an eligible target. -/
theorem insert_empty_trim_noop (target : DictationTarget) (text : String)
    (h : jsTrim text = "") :
    insertTextIntoTarget target text = ⟨false, target, []⟩ := by
  by_cases hv : isValidDictationTarget target = true
  · simp [insertTextIntoTarget, hv, h]
  · simp [insertTextIntoTarget, hv]

theorem insert_empty_trim_noop_witness :
    isValidDictationTarget helloTarget = true ∧ jsTrim "   " = "" ∧
      insertTextIntoTarget helloTarget "   " = ⟨false, helloTarget, []⟩ :=
  ⟨by decide, by decide, insert_empty_trim_noop helloTarget "   " (by decide)⟩

/-- C8 counterexample: a 2xx response whose JSON body has no `speak` field
is returned by `sendCommand` as a successful reply with no spoken-text
field, so success does not guarantee the field's presence. -/
theorem sendCommand_no_speak_counterexample :
    sendCommand true ⟨none, none, false⟩ = Except.ok ⟨none, none, false⟩ ∧
      (⟨none, none, false⟩ : CommandReply).speak = none :=
  ⟨rfl, rfl⟩

/-- C8 amended: on a 2xx response `sendCommand` returns the parsed JSON
body unchanged (the spoken-text field is present only when the server sent
one; the reply handler substitutes the empty string when it is absent),
and on a non-2xx response it throws `Request failed` and never returns a
reply. -/
theorem sendCommand_passthrough (response_ok : Bool) (body : CommandReply) :
    (response_ok = true → sendCommand response_ok body = Except.ok body) ∧
      (response_ok = false → sendCommand response_ok body = Except.error "Request failed") ∧
      (body.speak = none → ∀ (s : VoiceState) (text resolved : String),
        (handlePlain s text resolved (Except.ok body)).1.response = "") := by
  refine ⟨fun h => by simp [sendCommand, h], fun h => by simp [sendCommand, h], ?_⟩
  intro hs s text resolved
  simp [handlePlain, hs, extractNumberedQuestions]

theorem sendCommand_passthrough_witness :
    sendCommand true plainReply = Except.ok plainReply ∧
      sendCommand false plainReply = Except.error "Request failed" ∧
      (handlePlain initialState "hi" "en-US"
          (Except.ok ⟨none, none, false⟩)).1.response = "" :=
  ⟨(sendCommand_passthrough true plainReply).1 rfl,
    (sendCommand_passthrough false plainReply).2.1 rfl,
    (sendCommand_passthrough true ⟨none, none, false⟩).2.2 rfl initialState "hi" "en-US"⟩

/-- C4: while awaiting confirmation, classification is case-insensitive
over the fixed vocabularies.  An utterance normalising into the yes
vocabulary reissues the stored confirmation command (whose text already
carries the appended `confirm=true`); one normalising into the no
vocabulary emits the localized cancelled message and clears confirmation
state; anything else re-prompts to say yes or no and never sends the
confirmation command. -/
theorem confirmation_classification (s : VoiceState) (ctx : Ctx) (text : String)
    (net : Except Unit CommandReply)
    (hd : ctx.dictationOn = false) (hc : s.awaitingConfirm = true) :
    (isYes text = true ↔ normalizeUtterance text ∈
      (["yes", "y", "si", "sí", "ok", "okay", "confirm", "confirmar"] : List String)) ∧
    (isNo text = true ↔ normalizeUtterance text ∈
      (["no", "n", "cancel", "cancelar"] : List String)) ∧
    (isYes text = true →
      (onresult s ctx text net).2.head? = some (.sentCommand s.confirmCommandText
          (if s.confirmLang = "" then ctx.resolved else s.confirmLang)) ∧
        (onresult s ctx text net).1.awaitingConfirm = false) ∧
    (isYes text = false → isNo text = true →
      (onresult s ctx text net).1.awaitingConfirm = false ∧
        (onresult s ctx text net).1.confirmCommandText = "" ∧
        (onresult s ctx text net).1.response =
          (if langIsSpanish ctx.resolved then "Cancelado." else "Cancelled.") ∧
        ((onresult s ctx text net).2.all fun e => !e.isSend) = true) ∧
    (isYes text = false → isNo text = false →
      (onresult s ctx text net).1.status = "Say yes or no." ∧
        (onresult s ctx text net).1.awaitingConfirm = true ∧
        (onresult s ctx text net).1.confirmCommandText = s.confirmCommandText ∧
        (onresult s ctx text net).1.confirmLang = s.confirmLang ∧
        ((onresult s ctx text net).2.all fun e => !e.isSend) = true) := by
  refine ⟨?_, ?_, ?_, ?_, ?_⟩
  · rw [isYes_eq]
    simp only [Bool.or_eq_true, beq_iff_eq, List.mem_cons, List.not_mem_nil, or_false]
    tauto
  · rw [isNo_eq]
    simp only [Bool.or_eq_true, beq_iff_eq, List.mem_cons, List.not_mem_nil, or_false]
    tauto
  · intro hy
    rcases net with e | data <;>
      simp [onresult, hd, hc, handleConfirm, hy, speakEff, redirectEff]
  · intro hy hn
    simp [onresult, hd, hc, handleConfirm, hy, hn, speakEff]
    intro _
    rfl
  · intro hy hn
    simp [onresult, hd, hc, handleConfirm, hy, hn, speakThenListenEff]
    split <;> (intro x _ hx; rcases hx with rfl | rfl <;> rfl)

theorem confirmation_classification_witness :
    plainCtx.dictationOn = false ∧ confirmState.awaitingConfirm = true ∧ isYes "yes" = true ∧
      (onresult confirmState plainCtx "yes" (Except.ok plainReply)).2.head? =
        some (.sentCommand "create an invoice for Acme confirm=true" "en-US") ∧
      (onresult confirmState plainCtx "yes" (Except.ok plainReply)).1.awaitingConfirm = false := by
  have h := (confirmation_classification confirmState plainCtx "yes"
      (Except.ok plainReply) rfl rfl).2.2.1 (by decide)
  refine ⟨rfl, rfl, by decide, ?_, h.2⟩
  rw [h.1]; decide

/-- C3 counterexample: extraction is not the question texts of the lines
matching `<n>. <text>` at line start — on `"1.\nfoo"` no line matches the
pattern (the numbered line has no text of its own), yet the program's
regex extracts `["foo"]`, because the `\s*` after the dot crosses the line
break and the capture is taken from the following line. -/
theorem extraction_crossline_counterexample :
    extractNumberedQuestions "1.\nfoo" = ["foo"] ∧
      lineBasedQuestions "1.\nfoo" = [] :=
  ⟨by decide, by decide⟩

/-- C3 amended: extraction follows the global regex
`(?:^|\n)\s*\d+\.\s*([^\n]+)`, returning the trimmed captures in textual
match order with the numbering prefix stripped; since the whitespace after
the dot may span line breaks, a numbered prefix with an empty in-line body
captures its question from the following line.  For the spec's two-line
reply the queue is exactly the two questions in order (and likewise in the
cross-line form), and while collecting the queue is consumed strictly
front-to-back — one recognition result pops exactly the head question and
appends `(head, answer)` to the collected answers. -/
theorem extraction_regex_order_and_queue (s : VoiceState) (ctx : Ctx) (ans : String)
    (net : Except Unit CommandReply) (q : String) (rest : List String)
    (hd : ctx.dictationOn = false) (hcf : s.awaitingConfirm = false)
    (hc : s.collecting = true) (hq : s.pendingQuestions = q :: rest) :
    extractNumberedQuestions "1. What is the client name?\n2. What is the amount?" =
      ["What is the client name?", "What is the amount?"] ∧
    extractNumberedQuestions "1.\nWhat is the client name?\n2.\nWhat is the amount?" =
      ["What is the client name?", "What is the amount?"] ∧
    (onresult s ctx ans net).1.pendingQuestions = rest ∧
    (onresult s ctx ans net).1.collectedAnswers = s.collectedAnswers ++ [(q, ans)] := by
  have hred : onresult s ctx ans net =
      handleCollecting { s with transcript := ans } ans ctx.resolved net := by
    simp [onresult, hd, hcf, hc]
  refine ⟨by decide, by decide, ?_⟩
  rw [hred]
  rcases net with e | data <;> rcases rest with _ | ⟨r, rs⟩ <;>
      simp [handleCollecting, hq, askNextQuestion, finalizeCollected] <;>
      split <;> simp_all

theorem extraction_regex_order_and_queue_witness :
    collectState.pendingQuestions = "What is the client name?" :: ["What is the amount?"] ∧
      (onresult collectState plainCtx "Acme" (Except.ok plainReply)).1.pendingQuestions =
        ["What is the amount?"] ∧
      (onresult collectState plainCtx "Acme" (Except.ok plainReply)).1.collectedAnswers =
        [("What is the client name?", "Acme")] := by
  have h := extraction_regex_order_and_queue collectState plainCtx "Acme" (Except.ok plainReply)
      "What is the client name?" ["What is the amount?"] rfl rfl rfl rfl
  refine ⟨rfl, h.2.2.1, ?_⟩
  rw [h.2.2.2]; decide

/-- C1: for a fresh command whose reply extracts fewer than two questions
(extraction per the program's regex, `extractNumberedQuestions`) the
controller does not enter collection mode — `collecting` stays false, the
pending-question queue is untouched, and the reply is handled plainly
(shown, spoken, optionally scheduling the redirect); collection mode is
entered exactly when the extracted question list has length at least
two. -/
theorem plain_reply_collection_threshold (s : VoiceState) (ctx : Ctx) (text : String)
    (data : CommandReply)
    (hd : ctx.dictationOn = false) (hcf : s.awaitingConfirm = false)
    (hc : s.collecting = false) :
    ((onresult s ctx text (Except.ok data)).1.collecting = true ↔
      2 ≤ (extractNumberedQuestions (data.speak.getD "")).length) ∧
    ((extractNumberedQuestions (data.speak.getD "")).length < 2 →
      (onresult s ctx text (Except.ok data)).1.collecting = false ∧
        (onresult s ctx text (Except.ok data)).1.pendingQuestions = s.pendingQuestions ∧
        (onresult s ctx text (Except.ok data)).1.busy = false ∧
        (onresult s ctx text (Except.ok data)).1.response = data.speak.getD "" ∧
        (onresult s ctx text (Except.ok data)).1.status = "Done." ∧
        (onresult s ctx text (Except.ok data)).2 =
          Effect.sentCommand text ctx.resolved ::
            (speakEff (data.speak.getD "") ctx.resolved ++ redirectEff data)) := by
  have hred : onresult s ctx text (Except.ok data) =
      handlePlain { s with transcript := text } text ctx.resolved (Except.ok data) := by
    simp [onresult, hd, hcf, hc]
  rw [hred]
  by_cases h2 : 2 ≤ (extractNumberedQuestions (data.speak.getD "")).length
  · refine ⟨by simp [handlePlain, h2, askNextQuestion], fun hlt => absurd h2 (by omega)⟩
  · refine ⟨by simp [handlePlain, h2, hc], fun hlt => ?_⟩
    simp [handlePlain, h2, hc]

theorem plain_reply_collection_threshold_witness :
    (extractNumberedQuestions (oneQuestionReply.speak.getD "")).length < 2 ∧
      (onresult initialState plainCtx "create an invoice"
          (Except.ok oneQuestionReply)).1.collecting = false ∧
      (onresult initialState plainCtx "create an invoice"
          (Except.ok oneQuestionReply)).1.pendingQuestions = [] ∧
      (onresult initialState plainCtx "create an invoice"
          (Except.ok oneQuestionReply)).1.response = "1. What is the client name?" := by
  have h := (plain_reply_collection_threshold initialState plainCtx "create an invoice"
      oneQuestionReply rfl rfl rfl).2 (by decide)
  exact ⟨by decide, h.1, by rw [h.2.1]; decide, by rw [h.2.2.2.1]; decide⟩

/-- C5 counterexample: after a reply carrying two numbered questions the
controller is in collection mode with a non-empty pending queue, yet
`busy` is false — so `busy` is not held through the chained
question-collection flow the reply triggered. -/
theorem busy_during_collection_counterexample :
    (onresult initialState plainCtx "create an invoice"
        (Except.ok twoQuestionReply)).1.collecting = true ∧
      (onresult initialState plainCtx "create an invoice"
          (Except.ok twoQuestionReply)).1.pendingQuestions ≠ [] ∧
      (onresult initialState plainCtx "create an invoice"
          (Except.ok twoQuestionReply)).1.busy = false :=
  ⟨by decide, by decide, by decide⟩

/-- C5 amended: `busy` guards only the processing of one `sendCommand`
round trip.  The controller deliberately releases it (`busy = false`) on
entering question-collection mode and on entering the
awaiting-confirmation state, because listening must be restartable to
capture the user's next utterance and `startListening` is a no-op while
`busy` holds. -/
theorem busy_released_for_user_turns (s : VoiceState) (ctx : Ctx) (text : String)
    (data : CommandReply)
    (hd : ctx.dictationOn = false) (hcf : s.awaitingConfirm = false)
    (hc : s.collecting = false)
    (h2 : 2 ≤ (extractNumberedQuestions (data.speak.getD "")).length) :
    ((onresult s ctx text (Except.ok data)).1.busy = false ∧
      (onresult s ctx text (Except.ok data)).1.collecting = true) ∧
    (∀ (s2 : VoiceState) (resolved : String) (data2 : CommandReply),
      data2.needs_confirm = true →
      (finalizeCollected s2 resolved (Except.ok data2)).1.busy = false ∧
        (finalizeCollected s2 resolved (Except.ok data2)).1.awaitingConfirm = true) := by
  have hred : onresult s ctx text (Except.ok data) =
      handlePlain { s with transcript := text } text ctx.resolved (Except.ok data) := by
    simp [onresult, hd, hcf, hc]
  refine ⟨?_, fun s2 resolved data2 hnc => by simp [finalizeCollected, hnc]⟩
  rw [hred]
  simp [handlePlain, h2, askNextQuestion]

theorem busy_released_for_user_turns_witness :
    2 ≤ (extractNumberedQuestions (twoQuestionReply.speak.getD "")).length ∧
      (onresult initialState plainCtx "create an invoice"
          (Except.ok twoQuestionReply)).1.busy = false ∧
      confirmReply.needs_confirm = true ∧
      (finalizeCollected initialState "en-US" (Except.ok confirmReply)).1.busy = false ∧
      (finalizeCollected initialState "en-US" (Except.ok confirmReply)).1.awaitingConfirm = true := by
  have h := busy_released_for_user_turns initialState plainCtx "create an invoice"
      twoQuestionReply rfl rfl rfl (by decide)
  exact ⟨by decide, h.1.1, rfl, (h.2 initialState "en-US" confirmReply rfl).1,
    (h.2 initialState "en-US" confirmReply rfl).2⟩

end VoiceAssistant
